import Mathlib

/-!
Verification development for the Resilient Operation Gateway of the
`gen-ai-fusion` repository (services under
`src/backend/agents/cmga/services/`).  The Python modules
`error_handlers.py`, `caching.py`, `batching.py`, `monitoring.py` and the
orchestrator `adk_service_manager.py` are shallowly embedded below:
machine floats and `datetime` values are modelled as exact integers
(every constant relevant to the verified behaviours is integral),
Python exceptions as an explicit inductive type, and the asynchronous
methods as pure state-passing functions.  Each embedded definition
mirrors one Python function and is annotated with its source location.
-/

namespace GenAIFusion

/-- `ErrorType` enum of `error_handlers.py` lines 20-29. -/
inductive ErrorType where
  | authentication
  | rateLimit
  | network
  | apiError
  | quotaExceeded
  | serviceUnavailable
  | timeout
  | unknown
deriving DecidableEq, Repr

/-- The Python exceptions that can reach `ADKErrorClassifier.classify_error`
from a wrapped operation or from the circuit breaker.  `tooManyRequests`
carries the parsed `Retry-After` header of the response when one is
present (`error_handlers.py` lines 129-141). -/
inductive PyErr where
  | unauthenticated
  | tooManyRequests (retryAfter : Option ℤ)
  | resourceExhausted
  | serviceUnavailable
  | deadlineExceeded
  | googleAPIError
  | googleAuthError
  | connectionError
  | timeoutError
  | requestException
  | circuitBreakerOpen
  | otherError
deriving DecidableEq, Repr

/-- An exception as observed by a caller of the error-handling facade:
either a primitive fault or the `RetryExhaustedError` wrapper raised at
`error_handlers.py` lines 294-298, which carries the last underlying
fault (`None` when `max_attempts = 0`). -/
inductive PyException where
  | base (e : PyErr)
  | retryExhausted (original : Option PyErr)
deriving DecidableEq, Repr

/-- `ADKErrorClassifier.classify_error`, `error_handlers.py` lines 92-122.
The `isinstance` chain maps each exception class to an `ErrorType`;
anything unrecognised (including `CircuitBreakerOpenError`) falls through
to `UNKNOWN`. -/
def classifyErr : PyErr → ErrorType
  | .unauthenticated => .authentication
  | .tooManyRequests _ => .rateLimit
  | .resourceExhausted => .quotaExceeded
  | .serviceUnavailable => .serviceUnavailable
  | .deadlineExceeded => .timeout
  | .googleAPIError => .apiError
  | .googleAuthError => .authentication
  | .connectionError => .network
  | .timeoutError => .network
  | .requestException => .network
  | .circuitBreakerOpen => .unknown
  | .otherError => .unknown

/-- `classify_error` applied to a caller-facing exception:
`RetryExhaustedError` is not one of the recognised classes, so it is
classified `UNKNOWN` (the wrapper, not its payload, is classified —
this is what `ADKErrorHandler._record_error` sees at
`error_handlers.py` lines 387-395). -/
def classifyException : PyException → ErrorType
  | .base e => classifyErr e
  | .retryExhausted _ => .unknown

/-- `ADKErrorClassifier.get_retry_delay`, `error_handlers.py` lines
129-141: only a `TooManyRequests` fault with a parseable `Retry-After`
header yields a suggested delay. -/
def getRetryDelay : PyErr → Option ℤ
  | .tooManyRequests (some d) => some d
  | _ => none

/-- `RetryStrategy` enum, `error_handlers.py` lines 31-36. -/
inductive RetryStrategy where
  | exponentialBackoff
  | linearBackoff
  | fixedDelay
  | noRetry
deriving DecidableEq, Repr

/-- `RetryConfig` dataclass, `error_handlers.py` lines 49-63.  Delays are
exact integers standing for the Python floats. -/
structure RetryConfig where
  maxAttempts : Nat
  baseDelay : ℤ
  maxDelay : ℤ
  backoffFactor : ℤ
  jitter : Bool
  strategy : RetryStrategy
  retryableErrors : List ErrorType
deriving DecidableEq, Repr

/-- The default `RetryConfig` (`error_handlers.py` lines 52-63). -/
def defaultRetryConfig : RetryConfig :=
  { maxAttempts := 3
    baseDelay := 1
    maxDelay := 60
    backoffFactor := 2
    jitter := true
    strategy := .exponentialBackoff
    retryableErrors :=
      [.network, .timeout, .serviceUnavailable, .rateLimit] }

/-- The strategy branch of `RetryHandler._calculate_delay`,
`error_handlers.py` lines 308-316.  `attempt` is the 0-based loop index
of `execute_with_retry`. -/
def strategyDelay (cfg : RetryConfig) (attempt : Nat) : ℤ :=
  match cfg.strategy with
  | .exponentialBackoff => cfg.baseDelay * cfg.backoffFactor ^ attempt
  | .linearBackoff => cfg.baseDelay * (attempt + 1)
  | .fixedDelay => cfg.baseDelay
  | .noRetry => cfg.baseDelay

/-- The jitter-and-clamp tail of `RetryHandler._calculate_delay`,
`error_handlers.py` lines 318-324.  When jitter is enabled the sampled
adjustment is passed in as `jitterSample` (the code draws it uniformly
from ±10% of the delay); the final value is clamped to
`[0, max_delay]`. -/
def computedDelay (cfg : RetryConfig) (attempt : Nat) (jitterSample : ℤ) : ℤ :=
  let d := strategyDelay cfg attempt
  let d := if cfg.jitter then d + jitterSample else d
  max 0 (min d cfg.maxDelay)

/-- `RetryHandler._calculate_delay`, `error_handlers.py` lines 300-324.
The Python guard `if suggested_delay:` is truthy only for a present and
nonzero suggested delay, so a server `Retry-After` of `0` falls through
to the strategy computation. -/
def calculateDelay (cfg : RetryConfig) (attempt : Nat) (e : PyErr)
    (jitterSample : ℤ) : ℤ :=
  match getRetryDelay e with
  | some d => if d = 0 then computedDelay cfg attempt jitterSample
              else min d cfg.maxDelay
  | none => computedDelay cfg attempt jitterSample

/-- Result of one run of `RetryHandler.execute_with_retry` before the
final re-raise: either a value or exhaustion carrying the last fault. -/
inductive RetryResult where
  | ok (v : Nat)
  | exhausted (last : Option PyErr)
deriving DecidableEq, Repr

/-- Caller-visible outcome of an execution: a returned value or a raised
exception. -/
inductive ExecResult where
  | value (v : Nat)
  | raised (e : PyException)
deriving DecidableEq, Repr

/-- The retry loop of `RetryHandler.execute_with_retry`,
`error_handlers.py` lines 245-293.  `f` gives the outcome of invoking
the wrapped callable on each 0-based attempt; `remaining` counts the
attempts still allowed including the current one.  The returned `Nat`
is the number of invocations of `f`.  The loop stops after the last
allowed attempt or on a non-retryable error classification. -/
def retryGo (cfg : RetryConfig) (f : Nat → Except PyErr Nat) :
    Nat → Nat → RetryResult × Nat
  | 0, attempt => (.exhausted none, attempt)
  | remaining + 1, attempt =>
    match f attempt with
    | .ok v => (.ok v, attempt + 1)
    | .error e =>
      if remaining = 0 then (.exhausted (some e), attempt + 1)
      else if classifyErr e ∈ cfg.retryableErrors then
        retryGo cfg f remaining (attempt + 1)
      else (.exhausted (some e), attempt + 1)

/-- `RetryHandler.execute_with_retry` including its final raise
(`error_handlers.py` lines 294-298): every non-success leaves the loop
as a `RetryExhaustedError` wrapping the last fault.  Returns the
caller-visible result and the number of invocations of the wrapped
callable. -/
def executeWithRetry (cfg : RetryConfig) (f : Nat → Except PyErr Nat) :
    ExecResult × Nat :=
  match retryGo cfg f cfg.maxAttempts 0 with
  | (.ok v, n) => (.value v, n)
  | (.exhausted last, n) => (.raised (.retryExhausted last), n)

/-- `CircuitBreakerState` enum, `error_handlers.py` lines 73-77. -/
inductive CBState where
  | closed
  | opened
  | halfOpen
deriving DecidableEq, Repr

/-- `CircuitBreakerConfig` dataclass, `error_handlers.py` lines 65-71. -/
structure CBConfig where
  failureThreshold : Nat
  recoveryTimeout : ℤ
  successThreshold : Nat
  halfOpenMaxCalls : Nat
deriving DecidableEq, Repr

/-- `CircuitBreakerStatus` dataclass, `error_handlers.py` lines 79-87.
Timestamps are integers standing for `datetime` values. -/
structure CBStatus where
  state : CBState
  failureCount : Nat
  successCount : Nat
  lastFailureTime : Option ℤ
  nextAttemptTime : Option ℤ
  halfOpenCalls : Nat
deriving DecidableEq, Repr

/-- The freshly constructed status (`error_handlers.py` lines 79-87:
all dataclass defaults). -/
def initialCBStatus : CBStatus :=
  { state := .closed, failureCount := 0, successCount := 0
    lastFailureTime := none, nextAttemptTime := none, halfOpenCalls := 0 }

/-- `CircuitBreaker._check_state`, `error_handlers.py` lines 182-191:
an OPEN breaker whose `next_attempt_time` has been reached moves to
HALF_OPEN with the probe counter reset; otherwise nothing changes. -/
def checkState (st : CBStatus) (now : ℤ) : CBStatus :=
  match st.state, st.nextAttemptTime with
  | .opened, some t =>
    if now ≥ t then { st with state := .halfOpen, halfOpenCalls := 0 } else st
  | _, _ => st

/-- `CircuitBreaker._on_success`, `error_handlers.py` lines 193-204. -/
def onSuccess (cfg : CBConfig) (st : CBStatus) : CBStatus :=
  if st.state = .halfOpen then
    let st := { st with successCount := st.successCount + 1 }
    if st.successCount ≥ cfg.successThreshold then
      { st with state := .closed, failureCount := 0, successCount := 0 }
    else st
  else { st with failureCount := 0 }

/-- `CircuitBreaker._on_failure`, `error_handlers.py` lines 206-225.
The failure counter and timestamp are always updated; a HALF_OPEN
failure reopens the breaker, and a CLOSED breaker reaching
`failure_threshold` opens.  Note that `success_count` is not reset on a
HALF_OPEN failure. -/
def onFailure (cfg : CBConfig) (st : CBStatus) (now : ℤ) : CBStatus :=
  let st := { st with failureCount := st.failureCount + 1,
                      lastFailureTime := some now }
  match st.state with
  | .halfOpen =>
    { st with state := .opened,
              nextAttemptTime := some (now + cfg.recoveryTimeout) }
  | .closed =>
    if st.failureCount ≥ cfg.failureThreshold then
      { st with state := .opened,
                nextAttemptTime := some (now + cfg.recoveryTimeout) }
    else st
  | .opened => st

/-- Outcome of one `CircuitBreaker.call`: `rejected` is the
`CircuitBreakerOpenError` fast-fail path, in which the wrapped callable
is never invoked; `ok`/`failed` report the invoked callable's result. -/
inductive CBOutcome where
  | rejected
  | ok (v : Nat)
  | failed (e : PyErr)
deriving DecidableEq, Repr

/-- `CircuitBreaker.call`, `error_handlers.py` lines 152-180: check and
update the state, fail fast when OPEN or when the HALF_OPEN probe limit
is reached, otherwise admit the call (counting HALF_OPEN probes) and
apply `_on_success` or `_on_failure` to the result `fr` of the wrapped
callable. -/
def cbCall (cfg : CBConfig) (st : CBStatus) (now : ℤ)
    (fr : Except PyErr Nat) : CBStatus × CBOutcome :=
  let st := checkState st now
  if st.state = .opened then (st, .rejected)
  else if st.state = .halfOpen ∧ cfg.halfOpenMaxCalls ≤ st.halfOpenCalls then
    (st, .rejected)
  else
    let st := if st.state = .halfOpen then
                { st with halfOpenCalls := st.halfOpenCalls + 1 }
              else st
    match fr with
    | .ok v => (onSuccess cfg st, .ok v)
    | .error e => (onFailure cfg st now, .failed e)

/-- A sequence of breaker-protected calls: each element gives the call's
wall-clock time and the wrapped callable's would-be result. -/
def cbRun (cfg : CBConfig) (st : CBStatus) :
    List (ℤ × Except PyErr Nat) → CBStatus × List CBOutcome
  | [] => (st, [])
  | op :: rest =>
    let (st', o) := cbCall cfg st op.1 op.2
    let (stF, os) := cbRun cfg st' rest
    (stF, o :: os)

/-- Per-service error statistics, one counter per `ErrorType` value
(`ADKErrorHandler.configure_service`, `error_handlers.py` line 351). -/
structure ErrorStats where
  authentication : Nat := 0
  rateLimit : Nat := 0
  network : Nat := 0
  apiError : Nat := 0
  quotaExceeded : Nat := 0
  serviceUnavailable : Nat := 0
  timeout : Nat := 0
  unknown : Nat := 0
deriving DecidableEq, Repr

/-- `ADKErrorHandler._record_error`, `error_handlers.py` lines 387-395:
increment the counter for the classification of the raised exception. -/
def recordErrorStat (s : ErrorStats) : ErrorType → ErrorStats
  | .authentication => { s with authentication := s.authentication + 1 }
  | .rateLimit => { s with rateLimit := s.rateLimit + 1 }
  | .network => { s with network := s.network + 1 }
  | .apiError => { s with apiError := s.apiError + 1 }
  | .quotaExceeded => { s with quotaExceeded := s.quotaExceeded + 1 }
  | .serviceUnavailable => { s with serviceUnavailable := s.serviceUnavailable + 1 }
  | .timeout => { s with timeout := s.timeout + 1 }
  | .unknown => { s with unknown := s.unknown + 1 }

/-- One attempt of the `protected_func` closure built by
`ADKErrorHandler.execute_with_protection` (`error_handlers.py` lines
372-375): the wrapped callable goes through `CircuitBreaker.call`.  A
rejected call surfaces as a raised `CircuitBreakerOpenError` and the
wrapped callable is not invoked (the returned `Bool` records whether it
was). -/
def protectedAttempt (cbcfg : CBConfig) (f : Nat → Except PyErr Nat)
    (attempt : Nat) (now : ℤ) (st : CBStatus) :
    CBStatus × Except PyErr Nat × Bool :=
  match cbCall cbcfg st now (f attempt) with
  | (st', .rejected) => (st', .error .circuitBreakerOpen, false)
  | (st', .ok v) => (st', .ok v, true)
  | (st', .failed e) => (st', .error e, true)

/-- The retry loop of `execute_with_retry` applied to the
breaker-protected callable, threading the breaker status through the
attempts and counting invocations of the underlying wrapped callable.
`times` gives the wall-clock time of each attempt. -/
def retryCBGo (rcfg : RetryConfig) (cbcfg : CBConfig) (times : Nat → ℤ)
    (f : Nat → Except PyErr Nat) :
    Nat → Nat → CBStatus → Nat → RetryResult × Nat × CBStatus
  | 0, _, st, fc => (.exhausted none, fc, st)
  | remaining + 1, attempt, st, fc =>
    let (st', r, invoked) := protectedAttempt cbcfg f attempt (times attempt) st
    let fc' := fc + (if invoked then 1 else 0)
    match r with
    | .ok v => (.ok v, fc', st')
    | .error e =>
      if remaining = 0 then (.exhausted (some e), fc', st')
      else if classifyErr e ∈ rcfg.retryableErrors then
        retryCBGo rcfg cbcfg times f remaining (attempt + 1) st' fc'
      else (.exhausted (some e), fc', st')

/-- `ADKErrorHandler.execute_with_protection` for a service that has a
circuit breaker configured (`error_handlers.py` lines 355-385): run the
retry handler over the breaker-protected callable; on failure the
escaping exception is always the `RetryExhaustedError` wrapper, which
`_record_error` then classifies (as `UNKNOWN`) into the per-service
error statistics.  Returns the caller-visible result, the number of
invocations of the wrapped callable, the final breaker status and the
updated error statistics. -/
def executeWithProtection (rcfg : RetryConfig) (cbcfg : CBConfig)
    (st0 : CBStatus) (stats0 : ErrorStats) (times : Nat → ℤ)
    (f : Nat → Except PyErr Nat) :
    ExecResult × Nat × CBStatus × ErrorStats :=
  match retryCBGo rcfg cbcfg times f rcfg.maxAttempts 0 st0 0 with
  | (.ok v, fc, st) => (.value v, fc, st, stats0)
  | (.exhausted last, fc, st) =>
    (.raised (.retryExhausted last), fc, st,
     recordErrorStat stats0 (classifyException (.retryExhausted last)))

/-- `ADKServiceManager._execute_with_protection`,
`adk_service_manager.py` lines 376-383: the Monitor records a circuit
breaker trip exactly when the escaping exception is a
`CircuitBreakerOpenError` itself. -/
def managerTripRecorded : ExecResult → Bool
  | .raised (.base .circuitBreakerOpen) => true
  | _ => false

/-- `CacheStrategy` enum, `caching.py` lines 20-25. -/
inductive CacheStrategy where
  | lru
  | lfu
  | ttl
  | hybrid
deriving DecidableEq, Repr

/-- `CacheEntry` dataclass, `caching.py` lines 33-56.  Cached values are
abstracted to naturals; sizes and timestamps to integers. -/
structure CacheEntry where
  value : Nat
  createdAt : ℤ
  lastAccessed : ℤ
  accessCount : Nat
  ttlSeconds : Option ℤ
  sizeBytes : ℤ
deriving DecidableEq, Repr

/-- `CacheEntry.is_expired`, `caching.py` lines 45-51: strictly older
than the stored TTL. -/
def isExpired (e : CacheEntry) (now : ℤ) : Bool :=
  match e.ttlSeconds with
  | none => false
  | some t => decide (now - e.createdAt > t)

/-- The fields of `CacheConfig` (`caching.py` lines 58-67) that the
cache operations consult. -/
structure CacheConfig where
  maxSizeMb : ℤ
  defaultTtlSeconds : ℤ
  strategy : CacheStrategy
deriving DecidableEq, Repr

/-- `self.cache` (an `OrderedDict`, insertion-ordered with unique keys,
modelled as an association list, first entry oldest) together with
`self.cache_stats` (`caching.py` lines 74-81).  `sizeBytes` and
`entryCount` are the tracked statistics, which the code updates
separately from the dictionary itself. -/
structure CacheState where
  entries : List (String × CacheEntry)
  hits : Nat
  misses : Nat
  evictions : Nat
  sizeBytes : ℤ
  entryCount : Int
deriving DecidableEq, Repr

/-- The freshly constructed cache (`caching.py` lines 74-81). -/
def emptyCacheState : CacheState :=
  { entries := [], hits := 0, misses := 0, evictions := 0
    sizeBytes := 0, entryCount := 0 }

/-- First entry stored under `k` (dictionary lookup; keys are unique in
the Python `OrderedDict`). -/
def lookupE (k : String) : List (String × CacheEntry) → Option CacheEntry
  | [] => none
  | p :: ps => if p.1 = k then some p.2 else lookupE k ps

/-- `del self.cache[key]` (keys are unique, so dropping every pair with
this key deletes exactly the dictionary entry). -/
def removeK (k : String) : List (String × CacheEntry) →
    List (String × CacheEntry)
  | [] => []
  | p :: ps => if p.1 = k then removeK k ps else p :: removeK k ps

/-- In-place mutation of the entry stored under `k` (position kept). -/
def replaceK (k : String) (e : CacheEntry) : List (String × CacheEntry) →
    List (String × CacheEntry)
  | [] => []
  | p :: ps => if p.1 = k then (k, e) :: replaceK k e ps
               else p :: replaceK k e ps

/-- `self.cache.move_to_end(key)` after an in-place `touch`. -/
def moveToEnd (k : String) (e : CacheEntry)
    (l : List (String × CacheEntry)) : List (String × CacheEntry) :=
  removeK k l ++ [(k, e)]

def containsK (k : String) (l : List (String × CacheEntry)) : Bool :=
  (lookupE k l).isSome

/-- `CacheEntry.touch`, `caching.py` lines 53-56. -/
def touchEntry (e : CacheEntry) (now : ℤ) : CacheEntry :=
  { e with lastAccessed := now, accessCount := e.accessCount + 1 }

/-- `max_size_bytes` as computed in `set` and `_ensure_cache_space`
(`caching.py` lines 180 and 208). -/
def maxSizeBytes (cfg : CacheConfig) : ℤ :=
  cfg.maxSizeMb * 1024 * 1024

/-- `IntelligentCache.get`, `caching.py` lines 116-154, keyed directly by
the (deterministic) cache key: a miss on absence; on an expired entry,
evict it, count an eviction and a miss; otherwise touch the entry,
promote it to most-recently-used under LRU/HYBRID, count a hit and
return the value. -/
def cacheGet (cfg : CacheConfig) (st : CacheState) (k : String) (now : ℤ) :
    CacheState × Option Nat :=
  match lookupE k st.entries with
  | none => ({ st with misses := st.misses + 1 }, none)
  | some e =>
    if isExpired e now then
      ({ st with entries := removeK k st.entries,
                 evictions := st.evictions + 1,
                 entryCount := st.entryCount - 1,
                 sizeBytes := st.sizeBytes - e.sizeBytes,
                 misses := st.misses + 1 }, none)
    else
      let e' := touchEntry e now
      let entries' :=
        if cfg.strategy = .lru ∨ cfg.strategy = .hybrid then
          moveToEnd k e' st.entries
        else replaceK k e' st.entries
      ({ st with entries := entries', hits := st.hits + 1 }, some e.value)

/-- The first list element minimising `f` (Python `min(..., key=...)`
keeps the first of equal minima in iteration order). -/
def firstMinBy {β : Type} [LinearOrder β]
    (f : String × CacheEntry → β) :
    List (String × CacheEntry) → Option (String × CacheEntry)
  | [] => none
  | x :: xs => some (xs.foldl (fun b y => if f y < f b then y else b) x)

/-- The eviction victim chosen by `_ensure_cache_space`
(`caching.py` lines 210-231): LRU takes the first (least recently used)
entry, LFU the lowest access count, TTL the earliest creation, and
HYBRID the first already-expired entry, falling back to the first
entry. -/
def victimKey (cfg : CacheConfig) (now : ℤ)
    (l : List (String × CacheEntry)) : Option String :=
  match cfg.strategy with
  | .lru => l.head?.map Prod.fst
  | .lfu => (firstMinBy (fun p => p.2.accessCount) l).map Prod.fst
  | .ttl => (firstMinBy (fun p => p.2.createdAt) l).map Prod.fst
  | .hybrid =>
    match l.find? (fun p => isExpired p.2 now) with
    | some p => some p.1
    | none => l.head?.map Prod.fst

/-- One eviction step of `_ensure_cache_space` (`caching.py` lines
233-238): remove the victim and update the tracked statistics. -/
def evictOne (cfg : CacheConfig) (now : ℤ) (st : CacheState) : CacheState :=
  match victimKey cfg now st.entries with
  | none => st
  | some k =>
    match lookupE k st.entries with
    | none => st
    | some e =>
      { st with entries := removeK k st.entries,
                evictions := st.evictions + 1,
                entryCount := st.entryCount - 1,
                sizeBytes := st.sizeBytes - e.sizeBytes }

/-- The eviction loop of `IntelligentCache._ensure_cache_space`,
`caching.py` lines 206-240: while the tracked size plus the incoming
size exceeds the maximum and the dictionary is nonempty, evict one
entry.  Each iteration removes a present entry, so `st.entries.length`
iterations always suffice. -/
def ensureSpaceFuel (cfg : CacheConfig) (now : ℤ) (required : ℤ) :
    Nat → CacheState → CacheState
  | 0, st => st
  | fuel + 1, st =>
    if st.sizeBytes + required > maxSizeBytes cfg ∧ st.entries ≠ [] then
      ensureSpaceFuel cfg now required fuel (evictOne cfg now st)
    else st

def ensureSpace (cfg : CacheConfig) (now : ℤ) (required : ℤ)
    (st : CacheState) : CacheState :=
  ensureSpaceFuel cfg now required st.entries.length st

/-- The TTL actually stored by `set` (`caching.py` line 190):
`ttl_seconds or self.config.default_ttl_seconds`, so a missing or
zero TTL argument silently becomes the configured default. -/
def storedTtl (cfg : CacheConfig) : Option ℤ → ℤ
  | some t => if t = 0 then cfg.defaultTtlSeconds else t
  | none => cfg.defaultTtlSeconds

/-- `IntelligentCache.set`, `caching.py` lines 156-204, keyed directly by
the cache key with the serialized size passed in: reject entries larger
than 10% of the maximum size (`size_bytes > max_size_bytes * 0.1`,
stated integrally as `10 * size > max_size_bytes`, which agrees with the
float comparison on the integer sizes Python's `len` produces),
otherwise make room, store the entry
(replacing in place when the key exists, appending otherwise — dict
assignment) and add the new entry's size and count to the tracked
statistics unconditionally. -/
def cacheSet (cfg : CacheConfig) (st : CacheState) (k : String) (v : Nat)
    (ttl : Option ℤ) (size : ℤ) (now : ℤ) : CacheState × Bool :=
  if 10 * size > maxSizeBytes cfg then (st, false)
  else
    let e : CacheEntry :=
      { value := v, createdAt := now, lastAccessed := now, accessCount := 0
        ttlSeconds := some (storedTtl cfg ttl), sizeBytes := size }
    let st := ensureSpace cfg now size st
    let entries' := if containsK k st.entries then replaceK k e st.entries
                    else st.entries ++ [(k, e)]
    ({ st with entries := entries',
               entryCount := st.entryCount + 1,
               sizeBytes := st.sizeBytes + size }, true)

/-- A sequence of reads: fold `get` over (key, time) pairs, discarding
the returned values. -/
def runGets (cfg : CacheConfig) (st : CacheState)
    (reads : List (String × ℤ)) : CacheState :=
  reads.foldl (fun s r => (cacheGet cfg s r.1 r.2).1) st

/-- A sequence of writes: fold `set` over (key, size, time) triples with
no explicit TTL, collecting each call's accepted/rejected flag. -/
def cacheSetMany (cfg : CacheConfig) (st : CacheState)
    (ops : List (String × ℤ × ℤ)) : CacheState × List Bool :=
  ops.foldl
    (fun acc op =>
      let (st', b) := cacheSet cfg acc.1 op.1 0 none op.2.1 op.2.2
      (st', acc.2 ++ [b]))
    (st, [])

/-- `BatchRequest` (`batching.py` lines 23-32), with the request payload
abstracted to a natural and `rid` the submission index (the Python code
derives a unique id from a hash and a timestamp). -/
structure BReq where
  rid : Nat
  priority : Int
  data : Nat
deriving DecidableEq, Repr

/-- Stable insertion into a priority-descending list: the new request
goes after every queued request of greater or equal priority, which is
exactly where Python's stable `sort(key=priority, reverse=True)` leaves
it. -/
def insertDesc (x : BReq) : List BReq → List BReq
  | [] => [x]
  | y :: ys => if y.priority ≥ x.priority then y :: insertDesc x ys
               else x :: y :: ys

/-- `self.pending_requests[batch_key].sort(key=..., reverse=True)`
(`batching.py` lines 91-92) as a stable descending sort. -/
def pySortDesc (l : List BReq) : List BReq :=
  l.foldl (fun acc x => insertDesc x acc) []

/-- The queue contents after a sequence of `add_request` calls completes
their enqueue sections (`batching.py` lines 81-94): each request is
appended and, when priority batching is enabled, the queue is re-sorted
stably by descending priority. -/
def enqueueAll (priorityEnabled : Bool) (reqs : List BReq) : List BReq :=
  reqs.foldl
    (fun q r => if priorityEnabled then pySortDesc (q ++ [r]) else q ++ [r]) []

/-- The simulated per-request result produced by
`RequestBatcher._execute_batch` (`batching.py` lines 208-234): a record
built from the request's own data and the size of its dispatch group;
the wrapped operation plays no part in it. -/
structure SimResult where
  rid : Nat
  batchSize : Nat
  data : Nat
deriving DecidableEq, Repr

/-- `RequestBatcher._execute_batch` (`batching.py` lines 216-234):
one simulated result per request, appended in request order. -/
def executeBatchSim (reqs : List BReq) : List SimResult :=
  reqs.map (fun r => { rid := r.rid, batchSize := reqs.length, data := r.data })

/-- Repeated `_process_batch` dispatch (`batching.py` lines 158-206):
each dispatch atomically removes the first `maxSize` queued entries as
one group and the remaining queue is re-checked, until nothing is
pending.  `queue.length` dispatches always suffice for `maxSize ≥ 1`. -/
def dispatchGroupsFuel (maxSize : Nat) :
    Nat → List BReq → List (List BReq)
  | 0, _ => []
  | _, [] => []
  | fuel + 1, q => q.take maxSize :: dispatchGroupsFuel maxSize fuel (q.drop maxSize)

def dispatchGroups (maxSize : Nat) (q : List BReq) : List (List BReq) :=
  dispatchGroupsFuel maxSize q.length q

/-- The fan-out `zip(requests_to_process, results)` of `_process_batch`
(`batching.py` lines 181-186): within each group, result `i` fulfils
the future of request `i`. -/
def fulfillments (groups : List (List BReq)) : List (BReq × SimResult) :=
  (groups.map (fun g => g.zip (executeBatchSim g))).flatten

/-- Caller-visible result of one Gateway call. -/
inductive GwResult where
  | real (v : Nat)
  | raised (e : PyException)
  | simulated (r : SimResult)
deriving DecidableEq, Repr

/-- `ADKServiceManager._execute_with_batching_and_caching`
(`adk_service_manager.py` lines 392-447), cache disabled, for a single
request: when batching is enabled the call is handed to
`RequestBatcher.add_request(service, operation, data, priority)` —
which receives only the payload, never the wrapped callable `f` or the
`protected_func` closure defined at lines 423-425 — and the caller gets
the simulated batch result; when batching is disabled the call goes
through `_execute_with_protection` directly. -/
def gatewayDispatch (maxBatchSize : Nat) (priorityEnabled : Bool)
    (enableBatching : Bool) (data : Nat) (priority : Int)
    (rcfg : RetryConfig) (cbcfg : CBConfig) (st0 : CBStatus)
    (stats0 : ErrorStats) (times : Nat → ℤ)
    (f : Nat → Except PyErr Nat) : GwResult :=
  if enableBatching then
    let q := enqueueAll priorityEnabled [{ rid := 0, priority := priority, data := data }]
    match (fulfillments (dispatchGroups maxBatchSize q)).head? with
    | some p => .simulated p.2
    | none => .raised (.base .otherError)
  else
    match (executeWithProtection rcfg cbcfg st0 stats0 times f).1 with
    | .value v => .real v
    | .raised e => .raised e

/-- `PerformanceStats` dataclass, `monitoring.py` lines 36-47.
`min_response_time` starts at positive infinity, modelled as `none`. -/
structure PerformanceStats where
  totalRequests : Nat
  successfulRequests : Nat
  failedRequests : Nat
  totalResponseTime : ℤ
  minResponseTime : Option ℤ
  maxResponseTime : ℤ
  rateLimitHits : Nat
  circuitBreakerTrips : Nat
  lastRequestTime : Option ℤ
deriving DecidableEq, Repr

/-- `PerformanceStats.average_response_time`, `monitoring.py` lines
56-61. -/
def averageResponseTime (s : PerformanceStats) : ℚ :=
  if s.successfulRequests = 0 then 0
  else (s.totalResponseTime : ℚ) / (s.successfulRequests : ℚ)

/-- The stats update of `ADKMonitor.record_request_completion`,
`monitoring.py` lines 170-182: always bump the total and the last
request time; on success also accumulate the latency aggregates, on
failure only bump the failure counter. -/
def recordRequestCompletion (s : PerformanceStats) (success : Bool)
    (responseTime : ℤ) (now : ℤ) : PerformanceStats :=
  let s := { s with totalRequests := s.totalRequests + 1,
                    lastRequestTime := some now }
  if success then
    { s with successfulRequests := s.successfulRequests + 1,
             totalResponseTime := s.totalResponseTime + responseTime,
             minResponseTime :=
               some (match s.minResponseTime with
                     | none => responseTime
                     | some m => min m responseTime),
             maxResponseTime := max s.maxResponseTime responseTime }
  else
    { s with failedRequests := s.failedRequests + 1 }

/-! Concrete configurations used by the example runs below. -/

/-- The `vertex_ai` circuit breaker configuration of `SERVICE_CONFIGS`
(`error_handlers.py` lines 487-491), with the default
`half_open_max_calls`. -/
def cbVertex : CBConfig :=
  { failureThreshold := 3, recoveryTimeout := 120
    successThreshold := 2, halfOpenMaxCalls := 5 }

/-- A `CircuitBreakerConfig(failure_threshold=5, recovery_timeout=60,
success_threshold=3, half_open_max_calls=5)` — the dataclass
defaults (`error_handlers.py` lines 65-71). -/
def cbDefault : CBConfig :=
  { failureThreshold := 5, recoveryTimeout := 60
    successThreshold := 3, halfOpenMaxCalls := 5 }

/-- A breaker configuration with `failure_threshold=1`,
`recovery_timeout=10`, `success_threshold=2`. -/
def cbProbe : CBConfig :=
  { failureThreshold := 1, recoveryTimeout := 10
    successThreshold := 2, halfOpenMaxCalls := 5 }

/-- A breaker driven OPEN: the default-configured breaker after five
consecutive `ServiceUnavailable` failures at time 0
(`next_attempt_time = 60`). -/
def cbOpenStatus : CBStatus :=
  (cbRun cbDefault initialCBStatus
    (List.replicate 5 ((0 : ℤ), Except.error PyErr.serviceUnavailable))).1

/-- `RetryConfig(strategy=exponential, base_delay=1, backoff_factor=2,
max_delay=10)` with jitter disabled, as in the spec's delay-sequence
example. -/
def expRetryConfig : RetryConfig :=
  { maxAttempts := 5, baseDelay := 1, maxDelay := 10, backoffFactor := 2
    jitter := false, strategy := .exponentialBackoff
    retryableErrors := [.network, .timeout, .serviceUnavailable, .rateLimit] }

/-- A cache configured with `max_size_mb = 1` and the default
`default_ttl_seconds = 3600`, HYBRID strategy. -/
def cacheCfg1 : CacheConfig :=
  { maxSizeMb := 1, defaultTtlSeconds := 3600, strategy := .hybrid }

/-- Twelve `set` calls on the 1 MB cache (`max_size_bytes = 1048576`,
so entries of at most 104857 bytes are accepted), all on key `"k"`
except the last: nine of size 104857, then sizes 52431 and 52432 on
`"k"`, then one of size 104857 on `"m"`. -/
def dupSetOps : List (String × ℤ × ℤ) :=
  [("k", 104857, 0), ("k", 104857, 1), ("k", 104857, 2), ("k", 104857, 3),
   ("k", 104857, 4), ("k", 104857, 5), ("k", 104857, 6), ("k", 104857, 7),
   ("k", 104857, 8), ("k", 52431, 9), ("k", 52432, 10), ("m", 104857, 11)]

/-- Five equal-priority requests in submission order. -/
def fiveReqs : List BReq :=
  [{ rid := 0, priority := 0, data := 10 }, { rid := 1, priority := 0, data := 11 },
   { rid := 2, priority := 0, data := 12 }, { rid := 3, priority := 0, data := 13 },
   { rid := 4, priority := 0, data := 14 }]

/-! Claim theorems. -/

/-- Claim C1.  The claim states that with batching enabled the executed
operation is still the breaker-and-retry protected call, exactly as on
the direct path.  The code contradicts this: `add_request` receives only
`(service, operation, data, priority)`, the `protected_func` closure of
`adk_service_manager.py` lines 423-425 is never used, and
`RequestBatcher._execute_batch` fabricates a simulated result without
invoking the wrapped operation.  Concretely: with batching enabled the
gateway's outcome is the simulated record and is identical whether the
wrapped operation succeeds with 42 or raises an authentication fault,
while with batching disabled the two outcomes differ and are the
protected results. -/
theorem batching_bypasses_protection :
    gatewayDispatch 5 true true 77 0 defaultRetryConfig cbVertex
        initialCBStatus {} (fun _ => 0) (fun _ => .ok 42)
      = .simulated { rid := 0, batchSize := 1, data := 77 } ∧
    gatewayDispatch 5 true true 77 0 defaultRetryConfig cbVertex
        initialCBStatus {} (fun _ => 0) (fun _ => .error .unauthenticated)
      = .simulated { rid := 0, batchSize := 1, data := 77 } ∧
    gatewayDispatch 5 true false 77 0 defaultRetryConfig cbVertex
        initialCBStatus {} (fun _ => 0) (fun _ => .ok 42)
      = .real 42 ∧
    gatewayDispatch 5 true false 77 0 defaultRetryConfig cbVertex
        initialCBStatus {} (fun _ => 0) (fun _ => .error .unauthenticated)
      = .raised (.retryExhausted (some .unauthenticated)) := by
  decide

/-- Claim C2.  The claim states that a call attempted while the breaker
is OPEN surfaces as a distinct "breaker open" failure, is not counted in
the per-service error statistics as a normal failure, and is recorded in
the Monitor as a circuit-breaker trip.  The code contradicts all three
parts: `RetryHandler.execute_with_retry` always re-raises
`RetryExhaustedError`, so the caller receives the wrapper (classified
`UNKNOWN` and counted into `error_stats` by `_record_error`), and the
`except CircuitBreakerOpenError` handler of
`ADKServiceManager._execute_with_protection` never matches, so no trip
is recorded.  Concretely, with the default-configured breaker opened by
five failures at time 0 and a call at time 30 (before the 60-second
recovery timeout): the wrapped operation is not invoked, the result is
`RetryExhaustedError(CircuitBreakerOpenError)` rather than
`CircuitBreakerOpenError`, the `unknown` error counter is bumped, and
no trip is recorded. -/
theorem open_breaker_failure_wrapped_and_counted :
    (executeWithProtection defaultRetryConfig cbDefault cbOpenStatus {}
        (fun _ => (30 : ℤ)) (fun _ => .ok 42)).1
      = .raised (.retryExhausted (some .circuitBreakerOpen)) ∧
    (executeWithProtection defaultRetryConfig cbDefault cbOpenStatus {}
        (fun _ => (30 : ℤ)) (fun _ => .ok 42)).2.1 = 0 ∧
    (executeWithProtection defaultRetryConfig cbDefault cbOpenStatus {}
        (fun _ => (30 : ℤ)) (fun _ => .ok 42)).2.2.2.unknown = 1 ∧
    managerTripRecorded
        (executeWithProtection defaultRetryConfig cbDefault cbOpenStatus {}
          (fun _ => (30 : ℤ)) (fun _ => .ok 42)).1 = false ∧
    (executeWithProtection defaultRetryConfig cbDefault cbOpenStatus {}
        (fun _ => (30 : ℤ)) (fun _ => .ok 42)).1
      ≠ .raised (.base .circuitBreakerOpen) ∧
    cbOpenStatus.state = .opened ∧ cbOpenStatus.nextAttemptTime = some 60 := by
  decide

/-- Claim C3.  The claim states that a first-attempt Authentication
fault is not retried (true: the wrapped operation is invoked exactly
once, since `AUTHENTICATION` is not in the default retryable set) and
that the Authentication failure itself propagates to the caller.  The
code contradicts the second part: the loop exits through the
unconditional `raise RetryExhaustedError(...)` of `error_handlers.py`
lines 294-298, so the caller receives the wrapper, not the
`Unauthenticated` fault — the repository's own
`scripts/test_error_handling.py` expects `"Authentication"` in the
escaping message, which this wrapper does not contain. -/
theorem auth_failure_single_attempt_but_wrapped :
    (executeWithRetry defaultRetryConfig (fun _ => .error .unauthenticated)).2
      = 1 ∧
    (executeWithRetry defaultRetryConfig (fun _ => .error .unauthenticated)).1
      = .raised (.retryExhausted (some .unauthenticated)) ∧
    (executeWithRetry defaultRetryConfig (fun _ => .error .unauthenticated)).1
      ≠ .raised (.base .unauthenticated) ∧
    classifyErr .unauthenticated = .authentication := by
  decide

/-- Claim C9.  With `max_batch_size = 3`, five equal-priority requests
to the same (service, operation) queue in submission order (the
priority sort is stable), dispatch as exactly two groups of sizes 3 and
2, and within each group the results are zipped back to the entries'
futures 1:1 in submission order. -/
theorem batch_five_requests_two_groups_ordered :
    enqueueAll true fiveReqs = fiveReqs ∧
    (dispatchGroups 3 (enqueueAll true fiveReqs)).length = 2 ∧
    (dispatchGroups 3 (enqueueAll true fiveReqs)).map List.length = [3, 2] ∧
    (fulfillments (dispatchGroups 3 (enqueueAll true fiveReqs))).map
        (fun p => p.1.rid) = [0, 1, 2, 3, 4] ∧
    (fulfillments (dispatchGroups 3 (enqueueAll true fiveReqs))).map
        (fun p => (p.1.rid, p.2.rid, p.2.batchSize))
      = [(0, 0, 3), (1, 1, 3), (2, 2, 3), (3, 3, 2), (4, 4, 2)] := by
  decide

/-- Claim C10.  Recording a failed request leaves every latency
aggregate of the (service, operation) `PerformanceStats` unchanged —
`total_response_time`, `min_response_time`, `max_response_time` and
`successful_requests` (hence also the average) keep their prior values —
and changes exactly `total_requests`, `failed_requests` and
`last_request_time`. -/
theorem failed_request_preserves_latency_aggregates
    (s : PerformanceStats) (rt now : ℤ) :
    recordRequestCompletion s false rt now
      = { s with totalRequests := s.totalRequests + 1,
                 failedRequests := s.failedRequests + 1,
                 lastRequestTime := some now } ∧
    (recordRequestCompletion s false rt now).totalResponseTime
      = s.totalResponseTime ∧
    (recordRequestCompletion s false rt now).minResponseTime
      = s.minResponseTime ∧
    (recordRequestCompletion s false rt now).maxResponseTime
      = s.maxResponseTime ∧
    (recordRequestCompletion s false rt now).successfulRequests
      = s.successfulRequests ∧
    (recordRequestCompletion s false rt now).rateLimitHits
      = s.rateLimitHits ∧
    (recordRequestCompletion s false rt now).circuitBreakerTrips
      = s.circuitBreakerTrips ∧
    averageResponseTime (recordRequestCompletion s false rt now)
      = averageResponseTime s :=
  ⟨rfl, rfl, rfl, rfl, rfl, rfl, rfl, rfl⟩

/-- Claim C7.  The claim states that after any `set` completes the
tracked `cache_stats["size_bytes"]` never exceeds the maximum, with
duplicate keys allowed.  The code violates this: assigning an existing
key replaces the dictionary entry but `set` still adds the full new
size to `size_bytes` without subtracting the replaced entry's
(`caching.py` lines 199-201), so the tracked size drifts above the real
contents; once the dictionary is emptied, `_ensure_cache_space` stops
evicting and the insertion pushes the tracked size past the maximum.
Concretely, on a 1 MB cache, twelve accepted `set` calls (eleven on the
same key) leave `size_bytes = 1101001 > 1048576`. -/
theorem duplicate_key_sets_overflow_tracked_size :
    (cacheSetMany cacheCfg1 emptyCacheState dupSetOps).2
      = List.replicate 12 true ∧
    (cacheSetMany cacheCfg1 emptyCacheState dupSetOps).1.sizeBytes = 1101001 ∧
    maxSizeBytes cacheCfg1 = 1048576 ∧
    (cacheSetMany cacheCfg1 emptyCacheState dupSetOps).1.sizeBytes
      > maxSizeBytes cacheCfg1 ∧
    dupSetOps.all (fun op => decide (10 * op.2.1 ≤ maxSizeBytes cacheCfg1))
      = true := by
  decide

/-- Counterexample to claim C5 as stated.  The claim requires
`success_threshold` CONSECUTIVE probe successes before the breaker
closes, successes separated by an intervening HALF_OPEN failure not
counting.  The code never resets `success_count` on a HALF_OPEN failure
(`CircuitBreaker._on_failure`, `error_handlers.py` lines 206-217), so
accumulated successes survive reopening.  With
`failure_threshold = 1, recovery_timeout = 10, success_threshold = 2`:
fail at t=0 (OPEN), probe success at t=10, probe failure at t=11
(OPEN again), probe success at t=21 — the breaker CLOSES after this
single success following the interleaved failure, i.e. after two
non-consecutive successes. -/
theorem halfopen_nonconsecutive_successes_close :
    (cbRun cbProbe initialCBStatus
      [((0 : ℤ), .error .connectionError), (10, .ok 1),
       (11, .error .connectionError), (21, .ok 1)]).1.state = .closed ∧
    (cbRun cbProbe initialCBStatus
      [((0 : ℤ), .error .connectionError), (10, .ok 1),
       (11, .error .connectionError), (21, .ok 1)]).2
      = [.failed .connectionError, .ok 1, .failed .connectionError, .ok 1] ∧
    cbProbe.successThreshold = 2 := by
  decide

/-- Counterexample to claim C6 as stated.  The claim includes `T = 0`,
but `set` stores `ttl_seconds or default_ttl_seconds` (`caching.py`
line 190), and Python's `or` treats `0` as falsy: an entry stored with
`ttl = 0` actually receives the default TTL (3600 here).  Reading it at
elapsed time `1 > 0` therefore still returns the value as a hit. -/
theorem zero_ttl_entry_returned_after_expiry :
    (cacheGet cacheCfg1
        (cacheSet cacheCfg1 emptyCacheState "k" 7 (some 0) 1 0).1 "k" 1).2
      = some 7 ∧
    (cacheSet cacheCfg1 emptyCacheState "k" 7 (some 0) 1 0).2 = true ∧
    ((1 : ℤ) - 0 > 0) = True ∧
    (lookupE "k"
        (cacheSet cacheCfg1 emptyCacheState "k" 7 (some 0) 1 0).1.entries).map
        (fun e => e.ttlSeconds) = some (some 3600) := by
  decide

/-- Counterexample to claim C8 as stated.  The claim requires the delay
to be `min(v, max_delay)` whenever the fault carries a server
retry-after value `v`; but `_calculate_delay` guards with the Python
truthiness test `if suggested_delay:` (`error_handlers.py` line 305),
so `v = 0` is ignored and the strategy delay (1, for the first attempt
of the exponential config) is used instead of `min(0, 10) = 0`. -/
theorem retry_after_zero_ignored :
    calculateDelay expRetryConfig 0 (.tooManyRequests (some 0)) 0 = 1 ∧
    getRetryDelay (.tooManyRequests (some 0)) = some 0 ∧
    min (0 : ℤ) expRetryConfig.maxDelay = 0 ∧
    calculateDelay expRetryConfig 0 (.tooManyRequests (some 0)) 0
      ≠ min 0 expRetryConfig.maxDelay := by
  decide

/-- Claim C8, amended.  With jitter disabled the computed inter-attempt
delay equals the strategy formula (exponential:
`base_delay * backoff_factor ^ attempt` for the 0-based attempt index,
i.e. `backoff_factor ^ (n-1)` for the n-th attempt; linear:
`base_delay * (attempt + 1)`; fixed: `base_delay`) clamped to
`[0, max_delay]`; for the exponential configuration
`base_delay = 1, backoff_factor = 2, max_delay = 10` the successive
delays are `1, 2, 4, 8, 10` — never exceeding 10; and when the fault
carries a NONZERO server retry-after value `v` the delay used is
`min(v, max_delay)` in preference to the computed delay (a retry-after
of exactly 0 is discarded by the truthiness guard and the computed
delay is used instead). -/
theorem retry_delay_formula_no_jitter (cfg : RetryConfig) (attempt : Nat)
    (e : PyErr) (j v : ℤ) (hj : cfg.jitter = false) :
    (getRetryDelay e = none →
      (cfg.strategy = .exponentialBackoff →
        calculateDelay cfg attempt e j
          = max 0 (min (cfg.baseDelay * cfg.backoffFactor ^ attempt)
              cfg.maxDelay)) ∧
      (cfg.strategy = .linearBackoff →
        calculateDelay cfg attempt e j
          = max 0 (min (cfg.baseDelay * ((attempt : ℤ) + 1)) cfg.maxDelay)) ∧
      (cfg.strategy = .fixedDelay →
        calculateDelay cfg attempt e j
          = max 0 (min cfg.baseDelay cfg.maxDelay))) ∧
    (getRetryDelay e = some v → v ≠ 0 →
      calculateDelay cfg attempt e j = min v cfg.maxDelay) ∧
    (getRetryDelay e = some 0 →
      calculateDelay cfg attempt e j
        = max 0 (min (strategyDelay cfg attempt) cfg.maxDelay)) ∧
    (List.range 5).map
        (fun a => calculateDelay expRetryConfig a .connectionError 0)
      = [1, 2, 4, 8, 10] := by
  refine ⟨fun hn => ?_, fun hs hv => ?_, fun hs => ?_, by decide⟩
  · refine ⟨fun hstrat => ?_, fun hstrat => ?_, fun hstrat => ?_⟩ <;>
      simp [calculateDelay, hn, computedDelay, hj, strategyDelay, hstrat]
  · simp [calculateDelay, hs, hv]
  · simp [calculateDelay, hs, computedDelay, hj]

/-- Witness for `retry_delay_formula_no_jitter` at the exponential
configuration, first attempt, with a nonzero server retry-after of 3:
the delay used is `min 3 10 = 3`. -/
theorem retry_delay_formula_no_jitter_witness :
    calculateDelay expRetryConfig 0 (.tooManyRequests (some 3)) 0
      = min 3 expRetryConfig.maxDelay :=
  (retry_delay_formula_no_jitter expRetryConfig 0
    (.tooManyRequests (some 3)) 0 3 rfl).2.1 rfl (by decide)

/-- Claim C5, amended.  For an admitted HALF_OPEN probe call
(`half_open_calls` below the limit): any probe failure returns the
breaker to OPEN with `next_attempt_time = now + recovery_timeout`,
PRESERVING the accumulated `success_count`; and the breaker returns to
CLOSED (with failure and success counters reset) exactly when the
CUMULATIVE count of probe successes since the breaker last left CLOSED
reaches `success_threshold` — because `success_count` survives an
intervening HALF_OPEN failure, such successes need not be
consecutive. -/
theorem halfopen_probe_transitions (cfg : CBConfig) (st : CBStatus)
    (now : ℤ) (e : PyErr) (v : Nat)
    (hst : st.state = .halfOpen)
    (hadm : st.halfOpenCalls < cfg.halfOpenMaxCalls) :
    cbCall cfg st now (.error e)
      = ({ st with state := .opened,
                   failureCount := st.failureCount + 1,
                   lastFailureTime := some now,
                   nextAttemptTime := some (now + cfg.recoveryTimeout),
                   halfOpenCalls := st.halfOpenCalls + 1 }, .failed e) ∧
    (cfg.successThreshold ≤ st.successCount + 1 →
      cbCall cfg st now (.ok v)
        = ({ st with state := .closed, failureCount := 0, successCount := 0,
                     halfOpenCalls := st.halfOpenCalls + 1 }, .ok v)) ∧
    (st.successCount + 1 < cfg.successThreshold →
      cbCall cfg st now (.ok v)
        = ({ st with successCount := st.successCount + 1,
                     halfOpenCalls := st.halfOpenCalls + 1 }, .ok v)) := by
  obtain ⟨s, fc, sc, lf, na, hoc⟩ := st
  simp only at hst
  subst hst
  simp only at hadm
  refine ⟨?_, fun hge => ?_, fun hlt => ?_⟩
  · simp [cbCall, checkState, onFailure, Nat.not_le_of_lt hadm]
  · simp [cbCall, checkState, onSuccess, Nat.not_le_of_lt hadm, hge]
  · simp [cbCall, checkState, onSuccess, Nat.not_le_of_lt hadm,
      Nat.not_le_of_lt hlt]

/-- Witness for `halfopen_probe_transitions`: a HALF_OPEN breaker under
`cbProbe` with one accumulated probe success closes on the next probe
success. -/
theorem halfopen_probe_transitions_witness :
    cbCall cbProbe
        { state := .halfOpen, failureCount := 2, successCount := 1,
          lastFailureTime := some 11, nextAttemptTime := some 21,
          halfOpenCalls := 0 } 21 (.ok 5)
      = ({ state := .closed, failureCount := 0, successCount := 0,
           lastFailureTime := some 11, nextAttemptTime := some 21,
           halfOpenCalls := 1 }, .ok 5) :=
  (halfopen_probe_transitions cbProbe
    { state := .halfOpen, failureCount := 2, successCount := 1,
      lastFailureTime := some 11, nextAttemptTime := some 21,
      halfOpenCalls := 0 } 21 .connectionError 5 rfl
    (by decide)).2.1 (by decide)

/-- A failing call on a CLOSED breaker below the threshold only bumps
the failure counter and timestamp. -/
theorem cbCall_closed_fail_step (cfg : CBConfig) (st : CBStatus) (now : ℤ)
    (e : PyErr) (hst : st.state = .closed)
    (hlt : st.failureCount + 1 < cfg.failureThreshold) :
    cbCall cfg st now (.error e)
      = ({ st with failureCount := st.failureCount + 1,
                   lastFailureTime := some now }, .failed e) := by
  obtain ⟨s, fc, sc, lf, na, hoc⟩ := st
  simp only at hst
  subst hst
  simp only at hlt
  simp [cbCall, checkState, onFailure, Nat.not_le_of_lt hlt]

/-- The failing call that reaches the threshold flips a CLOSED breaker
to OPEN and schedules the next attempt. -/
theorem cbCall_closed_fail_flip (cfg : CBConfig) (st : CBStatus) (now : ℤ)
    (e : PyErr) (hst : st.state = .closed)
    (hge : cfg.failureThreshold ≤ st.failureCount + 1) :
    cbCall cfg st now (.error e)
      = ({ st with state := .opened,
                   failureCount := st.failureCount + 1,
                   lastFailureTime := some now,
                   nextAttemptTime := some (now + cfg.recoveryTimeout) },
         .failed e) := by
  obtain ⟨s, fc, sc, lf, na, hoc⟩ := st
  simp only at hst
  subst hst
  simp only at hge
  simp [cbCall, checkState, onFailure, hge]

/-- An OPEN breaker whose `next_attempt_time` has not yet been reached
rejects the call without touching its status or invoking the wrapped
callable. -/
theorem cbCall_open_reject (cfg : CBConfig) (st : CBStatus) (now T : ℤ)
    (fr : Except PyErr Nat) (hst : st.state = .opened)
    (hna : st.nextAttemptTime = some T) (hnow : now < T) :
    cbCall cfg st now fr = (st, .rejected) := by
  obtain ⟨s, fc, sc, lf, na, hoc⟩ := st
  simp only at hst hna
  subst hst
  subst hna
  simp [cbCall, checkState, not_le_of_lt hnow]

/-- Unfolding equation for `cbRun` on a nonempty call sequence. -/
theorem cbRun_cons (cfg : CBConfig) (st : CBStatus)
    (op : ℤ × Except PyErr Nat) (rest : List (ℤ × Except PyErr Nat)) :
    cbRun cfg st (op :: rest)
      = ((cbRun cfg (cbCall cfg st op.1 op.2).1 rest).1,
         (cbCall cfg st op.1 op.2).2
           :: (cbRun cfg (cbCall cfg st op.1 op.2).1 rest).2) := rfl

/-- Folding consecutive failures over a CLOSED breaker that reaches the
threshold exactly at the last failure: the run ends OPEN with the
failure counter at the threshold and `next_attempt_time` scheduled
`recovery_timeout` after the last failure. -/
theorem cbRun_closed_fails (cfg : CBConfig) :
    ∀ (fails : List (ℤ × PyErr)) (st : CBStatus) (t : ℤ) (e : PyErr),
      st.state = .closed →
      st.failureCount + fails.length = cfg.failureThreshold →
      fails.getLast? = some (t, e) →
      (cbRun cfg st (fails.map (fun p => (p.1, Except.error p.2)))).1
        = { st with state := .opened,
                    failureCount := cfg.failureThreshold,
                    lastFailureTime := some t,
                    nextAttemptTime := some (t + cfg.recoveryTimeout) }
  | [], _, _, _, _, _, hlast => by simp at hlast
  | [(pt, pe)], st, t, e, hst, hcnt, hlast => by
    obtain ⟨hpt, hpe⟩ : pt = t ∧ pe = e := by simpa using hlast
    subst hpt
    subst hpe
    have hge : cfg.failureThreshold ≤ st.failureCount + 1 := by
      simp only [List.length_singleton] at hcnt
      omega
    have hfc : st.failureCount + 1 = cfg.failureThreshold := by
      simp only [List.length_singleton] at hcnt
      omega
    have hstep := cbCall_closed_fail_flip cfg st pt pe hst hge
    simp only [List.map_cons, List.map_nil, cbRun_cons, hstep, cbRun, hfc]
  | p :: q :: rest, st, t, e, hst, hcnt, hlast => by
    have hlt : st.failureCount + 1 < cfg.failureThreshold := by
      simp only [List.length_cons] at hcnt
      omega
    have hstep := cbCall_closed_fail_step cfg st p.1 p.2 hst hlt
    have hcnt' : st.failureCount + 1 + (q :: rest).length
        = cfg.failureThreshold := by
      simp only [List.length_cons] at hcnt ⊢
      omega
    have hrec := cbRun_closed_fails cfg (q :: rest)
      { st with failureCount := st.failureCount + 1,
                lastFailureTime := some p.1 } t e hst hcnt'
      (by rwa [List.getLast?_cons_cons] at hlast)
    simp only [List.map_cons, cbRun_cons, hstep]
    exact hrec

/-- Every call in a sequence issued against an OPEN breaker before its
`next_attempt_time` is rejected and leaves the status untouched. -/
theorem cbRun_open_rejects (cfg : CBConfig) (T : ℤ) :
    ∀ (calls : List (ℤ × Except PyErr Nat)) (st : CBStatus),
      st.state = .opened → st.nextAttemptTime = some T →
      (∀ c ∈ calls, c.1 < T) →
      cbRun cfg st calls = (st, calls.map (fun _ => CBOutcome.rejected))
  | [], st, _, _, _ => by simp [cbRun]
  | c :: rest, st, hst, hna, hb => by
    have h1 : c.1 < T := hb c (List.mem_cons_self c rest)
    simp only [cbRun, cbCall_open_reject cfg st c.1 T c.2 hst hna h1,
      cbRun_open_rejects cfg T rest st hst hna
        (fun x hx => hb x (List.mem_cons_of_mem c hx)),
      List.map_cons]

/-- Claim C4.  Starting from a fresh CLOSED breaker, any sequence of
exactly `failure_threshold` consecutive failed calls (the threshold
being at least 1, which the nonempty sequence forces) drives the
breaker OPEN with `next_attempt_time` equal to the last failure's time
plus `recovery_timeout`; and every subsequent call issued before that
deadline is rejected with the breaker-open signal — the wrapped
operation is never invoked — leaving the status unchanged. -/
theorem consecutive_failures_open_then_fail_fast (cfg : CBConfig)
    (fails : List (ℤ × PyErr)) (t : ℤ) (e : PyErr)
    (calls : List (ℤ × Except PyErr Nat))
    (hlen : fails.length = cfg.failureThreshold)
    (hlast : fails.getLast? = some (t, e))
    (hcalls : ∀ c ∈ calls, c.1 < t + cfg.recoveryTimeout) :
    (cbRun cfg initialCBStatus
        (fails.map (fun p => (p.1, Except.error p.2)))).1.state = .opened ∧
    (cbRun cfg initialCBStatus
        (fails.map (fun p => (p.1, Except.error p.2)))).1.nextAttemptTime
      = some (t + cfg.recoveryTimeout) ∧
    cbRun cfg
        (cbRun cfg initialCBStatus
          (fails.map (fun p => (p.1, Except.error p.2)))).1 calls
      = ((cbRun cfg initialCBStatus
            (fails.map (fun p => (p.1, Except.error p.2)))).1,
         calls.map (fun _ => CBOutcome.rejected)) := by
  have hfin := cbRun_closed_fails cfg fails initialCBStatus t e rfl
    (by simpa [initialCBStatus] using hlen) hlast
  rw [hfin]
  exact ⟨rfl, rfl,
    cbRun_open_rejects cfg (t + cfg.recoveryTimeout) calls _ rfl rfl hcalls⟩

/-- Witness for `consecutive_failures_open_then_fail_fast`: under
`cbProbe` (`failure_threshold = 1`, `recovery_timeout = 10`) a single
failure at time 2 opens the breaker until time 12, and calls at times 5
and 11 — one of which would succeed — are both rejected. -/
theorem consecutive_failures_open_then_fail_fast_witness :
    (cbRun cbProbe initialCBStatus
        [((2 : ℤ), Except.error PyErr.connectionError)]).1.state
      = .opened ∧
    (cbRun cbProbe initialCBStatus
        [((2 : ℤ), Except.error PyErr.connectionError)]).1.nextAttemptTime
      = some 12 ∧
    cbRun cbProbe
        (cbRun cbProbe initialCBStatus
          [((2 : ℤ), Except.error PyErr.connectionError)]).1
        [((5 : ℤ), Except.ok 0), ((11 : ℤ), Except.error PyErr.connectionError)]
      = ((cbRun cbProbe initialCBStatus
            [((2 : ℤ), Except.error PyErr.connectionError)]).1,
         [CBOutcome.rejected, CBOutcome.rejected]) :=
  consecutive_failures_open_then_fail_fast cbProbe
    [((2 : ℤ), PyErr.connectionError)] 2 PyErr.connectionError
    [((5 : ℤ), Except.ok 0), ((11 : ℤ), Except.error PyErr.connectionError)]
    (by decide) (by decide) (by decide)

/-- Lookup after deleting a key. -/
theorem lookupE_removeK (k k' : String) :
    ∀ l, lookupE k (removeK k' l)
      = if k = k' then none else lookupE k l := by
  intro l
  induction l with
  | nil => simp [removeK, lookupE]
  | cons p ps ih =>
    by_cases h1 : p.1 = k'
    · have hrw : removeK k' (p :: ps) = removeK k' ps := by
        simp [removeK, h1]
      rw [hrw, ih]
      by_cases h2 : k = k'
      · simp [h2]
      · have hpk : ¬ p.1 = k := by
          rw [h1]
          exact fun hh => h2 hh.symm
        simp [h2, lookupE, hpk]
    · have hrw : removeK k' (p :: ps) = p :: removeK k' ps := by
        simp [removeK, h1]
      rw [hrw]
      by_cases hpk : p.1 = k
      · have h2 : ¬ k = k' := fun hh => h1 (hpk.trans hh)
        simp [lookupE, hpk, h2]
      · simp [lookupE, hpk, ih]

/-- Lookup distributes over append when the key is absent on the
left. -/
theorem lookupE_append_none (k : String) :
    ∀ l₁ l₂, lookupE k l₁ = none →
      lookupE k (l₁ ++ l₂) = lookupE k l₂ := by
  intro l₁ l₂ h
  induction l₁ with
  | nil => simp
  | cons p ps ih =>
    by_cases h1 : p.1 = k
    · simp [lookupE, h1] at h
    · simp [lookupE, h1] at h ⊢
      exact ih h

/-- Lookup distributes over append when the key is present on the
left. -/
theorem lookupE_append_some (k : String) (e : CacheEntry) :
    ∀ l₁ l₂, lookupE k l₁ = some e →
      lookupE k (l₁ ++ l₂) = some e := by
  intro l₁ l₂ h
  induction l₁ with
  | nil => simp [lookupE] at h
  | cons p ps ih =>
    by_cases h1 : p.1 = k
    · simp [lookupE, h1] at h ⊢
      exact h
    · simp [lookupE, h1] at h ⊢
      exact ih h

/-- Replacing a different key does not change a lookup. -/
theorem lookupE_replaceK_ne (k k' : String) (e' : CacheEntry)
    (hne : k ≠ k') :
    ∀ l, lookupE k (replaceK k' e' l) = lookupE k l := by
  intro l
  induction l with
  | nil => simp [replaceK, lookupE]
  | cons p ps ih =>
    by_cases h1 : p.1 = k'
    · have hrw : replaceK k' e' (p :: ps) = (k', e') :: replaceK k' e' ps := by
        simp [replaceK, h1]
      have hk'k : ¬ k' = k := fun h => hne h.symm
      have hpk : ¬ p.1 = k := by
        rw [h1]
        exact hk'k
      rw [hrw]
      simp [lookupE, hk'k, hpk, ih]
    · have hrw : replaceK k' e' (p :: ps) = p :: replaceK k' e' ps := by
        simp [replaceK, h1]
      rw [hrw]
      by_cases hpk : p.1 = k
      · simp [lookupE, hpk]
      · simp [lookupE, hpk, ih]

/-- Replacing a present key makes its lookup return the new entry. -/
theorem lookupE_replaceK_self (k : String) (e' : CacheEntry) :
    ∀ l e0, lookupE k l = some e0 →
      lookupE k (replaceK k e' l) = some e' := by
  intro l
  induction l with
  | nil =>
    intro e0 h
    simp [lookupE] at h
  | cons p ps ih =>
    intro e0 h
    by_cases h1 : p.1 = k
    · simp [replaceK, lookupE, h1]
    · simp only [lookupE, h1, if_false] at h
      simp only [replaceK, h1, if_false, lookupE]
      exact ih e0 h

/-- The creation time and stored TTL of whatever entry is found under
`k` are fixed: the property preserved by reads. -/
def keyMeta (k : String) (t0 T : ℤ) (st : CacheState) : Prop :=
  ∀ e, lookupE k st.entries = some e →
    e.createdAt = t0 ∧ e.ttlSeconds = some T

/-- One `get` — on any key, at any time — preserves `keyMeta`: reads
only touch `last_accessed`, `access_count` and list position, or delete
an entry; they never change `created_at` or `ttl_seconds`. -/
theorem cacheGet_keyMeta (cfg : CacheConfig) (st : CacheState)
    (k' : String) (ts : ℤ) (k : String) (t0 T : ℤ)
    (h : keyMeta k t0 T st) :
    keyMeta k t0 T (cacheGet cfg st k' ts).1 := by
  intro e' he'
  by_cases hl : ∃ e0, lookupE k' st.entries = some e0
  · obtain ⟨e0, hl0⟩ := hl
    by_cases hex : isExpired e0 ts
    · simp only [cacheGet, hl0, hex, if_true] at he'
      rw [lookupE_removeK] at he'
      by_cases hkk : k = k'
      · simp [hkk] at he'
      · simp only [hkk, if_false] at he'
        exact h e' he'
    · by_cases hstrat : cfg.strategy = .lru ∨ cfg.strategy = .hybrid
      · simp only [cacheGet, hl0, hex, if_false, hstrat, if_true,
          Bool.false_eq_true, moveToEnd] at he'
        by_cases hkk : k = k'
        · subst hkk
          have hnone : lookupE k (removeK k st.entries) = none := by
            rw [lookupE_removeK]
            simp
          rw [lookupE_append_none k _ _ hnone] at he'
          simp [lookupE] at he'
          obtain ⟨h1, h2⟩ := h e0 hl0
          simp [← he', touchEntry, h1, h2]
        · have hrk : lookupE k (removeK k' st.entries) = lookupE k st.entries := by
            rw [lookupE_removeK]
            simp [hkk]
          rcases hcase : lookupE k st.entries with _ | e1
          · rw [lookupE_append_none k _ _ (hrk.trans hcase)] at he'
            have hk'k : ¬ k' = k := fun hh => hkk hh.symm
            simp [lookupE, hk'k] at he'
          · rw [lookupE_append_some k e1 _ _ (hrk.trans hcase)] at he'
            cases he'
            exact h _ hcase
      · simp only [cacheGet, hl0, hex, if_false, hstrat,
          Bool.false_eq_true] at he'
        by_cases hkk : k = k'
        · subst hkk
          rw [lookupE_replaceK_self k _ _ e0 hl0] at he'
          obtain rfl : touchEntry e0 ts = e' := by simpa using he'
          obtain ⟨h1, h2⟩ := h e0 hl0
          simp [touchEntry, h1, h2]
        · rw [lookupE_replaceK_ne k k' _ hkk] at he'
          exact h e' he'
  · push_neg at hl
    have hl0 : lookupE k' st.entries = none :=
      Option.eq_none_iff_forall_not_mem.mpr
        (fun e he => hl e (by simpa using he))
    simp only [cacheGet, hl0] at he'
    exact h e' he'

/-- Any sequence of reads preserves `keyMeta`. -/
theorem runGets_keyMeta (cfg : CacheConfig) (k : String) (t0 T : ℤ) :
    ∀ (reads : List (String × ℤ)) (st : CacheState),
      keyMeta k t0 T st → keyMeta k t0 T (runGets cfg st reads)
  | [], _, h => h
  | r :: rest, st, h =>
    runGets_keyMeta cfg k t0 T rest (cacheGet cfg st r.1 r.2).1
      (cacheGet_keyMeta cfg st r.1 r.2 k t0 T h)

/-- An accepted `set` leaves exactly the freshly created entry under its
key. -/
theorem cacheSet_lookup_self (cfg : CacheConfig) (st : CacheState)
    (k : String) (v : Nat) (ttl : Option ℤ) (size t0 : ℤ)
    (hacc : (cacheSet cfg st k v ttl size t0).2 = true) :
    lookupE k ((cacheSet cfg st k v ttl size t0).1).entries
      = some { value := v, createdAt := t0, lastAccessed := t0
               accessCount := 0, ttlSeconds := some (storedTtl cfg ttl)
               sizeBytes := size } := by
  by_cases hbig : 10 * size > maxSizeBytes cfg
  · simp [cacheSet, hbig] at hacc
  · simp only [cacheSet, hbig, if_false]
    by_cases hc : containsK k (ensureSpace cfg t0 size st).entries = true
    · simp only [hc, if_true]
      obtain ⟨e0, he0⟩ : ∃ e0,
          lookupE k (ensureSpace cfg t0 size st).entries = some e0 := by
        unfold containsK at hc
        exact Option.isSome_iff_exists.mp (by simpa using hc)
      exact lookupE_replaceK_self k _ _ e0 he0
    · have hc' : containsK k (ensureSpace cfg t0 size st).entries = false :=
        Bool.eq_false_iff.mpr hc
      simp only [hc', Bool.false_eq_true, if_false]
      have hnone : lookupE k (ensureSpace cfg t0 size st).entries = none := by
        unfold containsK at hc'
        simpa using hc'
      rw [lookupE_append_none k _ _ hnone]
      simp [lookupE]

/-- Claim C6, amended.  For an entry stored via `set` with an explicit
NONZERO `ttl = T`: once the elapsed time since its creation exceeds
`T`, `get` never returns it — regardless of how many reads of any keys
occurred in between — and on such a read the entry (if still present)
is gone afterwards and the read counts as a miss.  (For `ttl = 0` the
claim fails: `ttl_seconds or default` replaces `0` by the default TTL,
see the counterexample.) -/
theorem cache_entry_never_returned_after_ttl (cfg : CacheConfig)
    (st0 : CacheState) (k : String) (v : Nat) (T size t0 now : ℤ)
    (reads : List (String × ℤ))
    (hT : T ≠ 0)
    (hacc : (cacheSet cfg st0 k v (some T) size t0).2 = true)
    (hnow : now - t0 > T) :
    (cacheGet cfg
        (runGets cfg (cacheSet cfg st0 k v (some T) size t0).1 reads)
        k now).2 = none ∧
    (cacheGet cfg
        (runGets cfg (cacheSet cfg st0 k v (some T) size t0).1 reads)
        k now).1.misses
      = (runGets cfg (cacheSet cfg st0 k v (some T) size t0).1 reads).misses
          + 1 ∧
    lookupE k ((cacheGet cfg
        (runGets cfg (cacheSet cfg st0 k v (some T) size t0).1 reads)
        k now).1).entries = none := by
  have hmeta1 : keyMeta k t0 T (cacheSet cfg st0 k v (some T) size t0).1 := by
    intro e he
    rw [cacheSet_lookup_self cfg st0 k v (some T) size t0 hacc] at he
    obtain rfl : _ = e := by simpa using he
    constructor
    · rfl
    · simp [storedTtl, hT]
  have hmeta2 := runGets_keyMeta cfg k t0 T reads _ hmeta1
  rcases hl : lookupE k
      (runGets cfg (cacheSet cfg st0 k v (some T) size t0).1 reads).entries
    with _ | e
  · simp [cacheGet, hl]
  · obtain ⟨hc, ht⟩ := hmeta2 e hl
    have hex : isExpired e now = true := by
      simp [isExpired, ht, hc]
      exact hnow
    simp [cacheGet, hl, hex, lookupE_removeK]

/-- Witness for `cache_entry_never_returned_after_ttl`: an entry stored
with `ttl = 5` at time 0 and read once at time 2 is not returned at
time 6. -/
theorem cache_entry_never_returned_after_ttl_witness :
    (cacheGet cacheCfg1
        (runGets cacheCfg1
          (cacheSet cacheCfg1 emptyCacheState "k" 7 (some 5) 1 0).1
          [("k", 2)])
        "k" 6).2 = none ∧
    (cacheGet cacheCfg1
        (runGets cacheCfg1
          (cacheSet cacheCfg1 emptyCacheState "k" 7 (some 5) 1 0).1
          [("k", 2)])
        "k" 6).1.misses
      = (runGets cacheCfg1
          (cacheSet cacheCfg1 emptyCacheState "k" 7 (some 5) 1 0).1
          [("k", 2)]).misses + 1 ∧
    lookupE "k" ((cacheGet cacheCfg1
        (runGets cacheCfg1
          (cacheSet cacheCfg1 emptyCacheState "k" 7 (some 5) 1 0).1
          [("k", 2)])
        "k" 6).1).entries = none :=
  cache_entry_never_returned_after_ttl cacheCfg1 emptyCacheState "k" 7
    5 1 0 6 [("k", 2)] (by decide) (by decide) (by decide)

end GenAIFusion
